import Mathlib

/-!
Verification of the GridTrackNet conversion script (convert_gridtracknet.py).

Part 1 models the tensor-layout transforms of the Keras wrapper built in
build_wrapped_model: tensors are total functions over Fin-indexed axes, and
each Keras layer (transpose, concatenate, permute, reshape, slice) becomes a
function on such tensors with its row-major semantics spelled out.

Part 2 models the main() export pipeline as a function from an environment
(which external facts hold: the weight file exists, the converter succeeds,
which output names the converter reports, whether each rename strategy
succeeds, whether the weights directory is found) to a trace of observable
effects plus either a fatal error or the final package state.
-/

namespace GridTrackNet

/-! ### Geometry constants (source line 30: H, W, F = 432, 768, 5) -/

def H : Nat := 432

def W : Nat := 768

def F : Nat := 5

section Tensors

variable {α : Type}

/-- Source line 54: to_nchw transposes one channel-last frame (H, W, 3) to
channel-first (3, H, W) via tf.transpose with permutation [0, 3, 1, 2]. -/
def to_nchw (t : Fin H → Fin W → Fin 3 → α) : Fin 3 → Fin H → Fin W → α :=
  fun c h w => t h w c

/-- Concatenation of two channel-first tensors along the channel axis:
channels below m come from the first operand, the rest from the second. -/
def concatChan {m n : Nat} (a : Fin m → Fin H → Fin W → α)
    (b : Fin n → Fin H → Fin W → α) : Fin (m + n) → Fin H → Fin W → α :=
  fun c h w =>
    if hc : (c : Nat) < m then a ⟨c, hc⟩ h w
    else b ⟨(c : Nat) - m, by have := c.isLt; omega⟩ h w

/-- Source line 58: Concatenate(axis=1) of the five channel-first frames, in
frame order, producing the 15-channel stacked tensor. -/
def stack_5xRGB (fs : Fin 5 → (Fin H → Fin W → Fin 3 → α)) :
    Fin 15 → Fin H → Fin W → α :=
  concatChan (to_nchw (fs 0))
    (concatChan (to_nchw (fs 1))
      (concatChan (to_nchw (fs 2))
        (concatChan (to_nchw (fs 3)) (to_nchw (fs 4)))))

/-- Source line 62: Permute((2, 3, 1)) takes the core output (15, 48, 27) to
trailing-channel layout (48, 27, 15). -/
def to_HW_C (t : Fin 15 → Fin 48 → Fin 27 → α) :
    Fin 48 → Fin 27 → Fin 15 → α :=
  fun h w c => t c h w

/-- Source line 63: Reshape((48, 27, 5, 3)) factors the trailing 15 channels
into (5, 3) with row-major semantics: entry (f, k) reads flat channel
3 * f + k of the input. -/
def to_HW_F3 (t : Fin 48 → Fin 27 → Fin 15 → α) :
    Fin 48 → Fin 27 → Fin 5 → Fin 3 → α :=
  fun h w f k =>
    t h w ⟨3 * (f : Nat) + (k : Nat), by have := f.isLt; have := k.isLt; omega⟩

/-- Source line 64: Permute((3, 1, 2, 4)) brings the frame axis to the front
and keeps the head axis trailing, yielding shape (5, 48, 27, 3). -/
def to_F_HW_C (t : Fin 48 → Fin 27 → Fin 5 → Fin 3 → α) :
    Fin 5 → Fin 48 → Fin 27 → Fin 3 → α :=
  fun f h w k => t h w f k

/-- Lambda(lambda t: t[..., k]): slice the trailing head axis at index k. -/
def sliceHead (t : Fin 5 → Fin 48 → Fin 27 → Fin 3 → α) (k : Fin 3) :
    Fin 5 → Fin 48 → Fin 27 → α :=
  fun f h w => t f h w k

/-- The whole post-core chain of source lines 62-64. -/
def postCore (t : Fin 15 → Fin 48 → Fin 27 → α) :
    Fin 5 → Fin 48 → Fin 27 → Fin 3 → α :=
  to_F_HW_C (to_HW_F3 (to_HW_C t))

/-- Source line 66: conf output, trailing head index 0. -/
def conf (t : Fin 15 → Fin 48 → Fin 27 → α) : Fin 5 → Fin 48 → Fin 27 → α :=
  sliceHead (postCore t) 0

/-- Source line 67: x_off output, trailing head index 1. -/
def x_off (t : Fin 15 → Fin 48 → Fin 27 → α) : Fin 5 → Fin 48 → Fin 27 → α :=
  sliceHead (postCore t) 1

/-- Source line 68: y_off output, trailing head index 2. -/
def y_off (t : Fin 15 → Fin 48 → Fin 27 → α) : Fin 5 → Fin 48 → Fin 27 → α :=
  sliceHead (postCore t) 2

end Tensors

/-- Claim C1: for every core-network output tensor of shape (15, 48, 27), the
post-core chain (permute channels trailing, reshape 15 into (5, 3), permute
frame axis to the front, slice the head axis) yields conf, x_off, y_off of
shape (5, 48, 27) such that for every frame f, row r, column c, they equal the
core output channels 3 f, 3 f + 1, 3 f + 2 at (r, c). -/
theorem c1_post_core_chain {α : Type} (t : Fin 15 → Fin 48 → Fin 27 → α)
    (f : Fin 5) (r : Fin 48) (c : Fin 27) :
    conf t f r c = t ⟨3 * (f : Nat), by have := f.isLt; omega⟩ r c ∧
    x_off t f r c = t ⟨3 * (f : Nat) + 1, by have := f.isLt; omega⟩ r c ∧
    y_off t f r c = t ⟨3 * (f : Nat) + 2, by have := f.isLt; omega⟩ r c :=
  ⟨rfl, rfl, rfl⟩

/-- Claim C2: stacking transposes each channel-last frame to channel-first and
concatenates in frame order, so channel 3 f + ch of the 15-channel stacked
tensor equals channel ch of frame f, at every spatial position. -/
theorem c2_stack_channel_order {α : Type}
    (fs : Fin 5 → (Fin H → Fin W → Fin 3 → α)) (f : Fin 5) (ch : Fin 3)
    (h : Fin H) (w : Fin W) :
    stack_5xRGB fs
      ⟨3 * (f : Nat) + (ch : Nat), by have := f.isLt; have := ch.isLt; omega⟩
      h w = fs f h w ch := by
  fin_cases f <;> fin_cases ch <;> rfl

/-! ### Part 2: the main() export pipeline (source lines 73-162) -/

/-- External facts the pipeline depends on: whether the weight file exists,
whether the converter call succeeds, the output names the converter reports,
whether each rename strategy runs without throwing, and whether the weights
directory of the package can be located. -/
structure Env where
  weightsExists : Bool
  convertOk : Bool
  convertedNames : List String
  renameInPlaceOk : Bool
  renameSpecOk : Bool
  weightsDirFound : Bool
deriving Repr, DecidableEq

/-- Observable effects of one pipeline execution, in order. -/
inductive Step where
  | buildModel : Step
  | loadWeights : Step
  | convert : Step
  | renameInPlace : String → String → Step
  | renameOnSpec : String → String → Step
  | rebuildModel : Step
  | warn : String → Step
  | attachMeta : Step
  | mkdirOutput : Step
  | save : Step
deriving Repr, DecidableEq

/-- Source line 105. -/
def desired_out_names : List String := ["conf", "x_off", "y_off"]

/-- Source line 77: the expected weight-file path, relative to the script
directory. -/
def weightsPathStr : String := "../GridTrackNet/model_weights.h5"

/-- Source line 81: the FileNotFoundError message names the missing path. -/
def missingWeightsMsg (p : String) : String := "Missing weights file: " ++ p

/-- Source lines 108-110: the RuntimeError message for a wrong output count. -/
def wrongCountMsg (names : List String) : String :=
  "Unexpected number of outputs from converter: " ++ toString names

/-- Source line 123. -/
def warnInPlaceMsg : String := "Warn: rename_feature(mlmodel, ...) failed"

/-- Source line 140. -/
def warnSpecMsg : String := "Warn: spec-level rename failed"

/-- Source line 135. -/
def weightsDirErrMsg : String := "Could not locate weights_dir for rebuilt MLModel."

/-- coremltools rename_feature on the list of output names: every feature
named old is renamed to new. -/
def rename_feature (names : List String) (old new : String) : List String :=
  names.map fun n => if n = old then new else n

/-- The positional rename loop shared by both strategies (source lines
116-118 and 130-132): iterate over the zipped (reported, desired) pairs and,
whenever the two differ, perform one rename call, mutating the name state.
The step constructor mk records which strategy the call belongs to. -/
def applyRenames (mk : String → String → Step) :
    List (String × String) → List String → List Step × List String
  | [], names => ([], names)
  | (o, n) :: rest, names =>
    if o ≠ n then
      let res := applyRenames mk rest (rename_feature names o n)
      (mk o n :: res.1, res.2)
    else
      applyRenames mk rest names

/-- Source lines 112-123: the in-place rename strategy. Entered only when the
reported names differ from the desired ones; any exception is caught and
logged as a warning, leaving the names unchanged. -/
def strategy1 (env : Env) (names : List String) : List Step × List String :=
  if names ≠ desired_out_names then
    if env.renameInPlaceOk then
      applyRenames Step.renameInPlace (names.zip desired_out_names) names
    else
      ([Step.warn warnInPlaceMsg], names)
  else
    ([], names)

/-- Source lines 125-140: the descriptor-level rename strategy. Entered only
when the names still differ from the desired ones. Renames are applied to a
fresh copy of the descriptor; if the weights directory cannot be located, a
RuntimeError is raised inside the try block, caught by the except clause and
logged as a warning, and the package (hence its names) is left unchanged.
Otherwise the package is rebuilt from the renamed descriptor. Any other
exception is likewise caught and logged. -/
def strategy2 (env : Env) (names : List String) : List Step × List String :=
  if names ≠ desired_out_names then
    if env.renameSpecOk then
      if env.weightsDirFound then
        ((applyRenames Step.renameOnSpec (names.zip desired_out_names) names).1
           ++ [Step.rebuildModel],
         (applyRenames Step.renameOnSpec (names.zip desired_out_names) names).2)
      else
        ((applyRenames Step.renameOnSpec (names.zip desired_out_names) names).1
           ++ [Step.warn (warnSpecMsg ++ ": " ++ weightsDirErrMsg)], names)
    else
      ([Step.warn warnSpecMsg], names)
  else
    ([], names)

/-- Source line 143-144. -/
def shortDescStr : String :=
  "GridTrackNet (5 frames). Outputs conf/x_off/y_off grids per frame."

/-- Source lines 146-149: per-input descriptions keyed f1..f5. -/
def inputDescPairs : List (String × String) :=
  (List.range 5).map fun i =>
    ("f" ++ toString (i + 1),
     "RGB frame " ++ toString (i + 1) ++ " of 5 (size must be 768x432 (WxH); pre-resize on iOS).")

/-- Source lines 151-157: per-output descriptions, keyed by the entries of
desired_out_names (not by the names the package actually carries). -/
def outputDescPairs : List (String × String) :=
  [(desired_out_names.getD 0 "", "Confidence grids; shape (5, 48, 27)."),
   (desired_out_names.getD 1 "", "X offsets in grid cell units; shape (5, 48, 27)."),
   (desired_out_names.getD 2 "", "Y offsets in grid cell units; shape (5, 48, 27).")]

/-- The final state of the package as saved: its output names and the
attached metadata. -/
structure PackageState where
  outNames : List String
  shortDescription : String
  inputDescs : List (String × String)
  outputDescs : List (String × String)
deriving Repr, DecidableEq

/-- Source lines 73-162: the whole main() pipeline. Returns the ordered trace
of observable effects together with either the fatal error that terminated
the process or the final package state that was saved. -/
def main (env : Env) : List Step × Except String PackageState :=
  if env.weightsExists = false then
    ([], .error (missingWeightsMsg weightsPathStr))
  else if env.convertOk = false then
    ([Step.buildModel, Step.loadWeights, Step.convert], .error "conversion toolkit raised")
  else if env.convertedNames.length ≠ 3 then
    ([Step.buildModel, Step.loadWeights, Step.convert],
     .error (wrongCountMsg env.convertedNames))
  else
    let s1 := strategy1 env env.convertedNames
    let s2 := strategy2 env s1.2
    ([Step.buildModel, Step.loadWeights, Step.convert] ++ s1.1 ++ s2.1
       ++ [Step.attachMeta, Step.mkdirOutput, Step.save],
     .ok { outNames := s2.2
           shortDescription := shortDescStr
           inputDescs := inputDescPairs
           outputDescs := outputDescPairs })

/-! ### Helper lemmas about the pipeline -/

/-- The trace of the rename loop is exactly one step per positionally zipped
pair whose two components differ; it does not depend on the name state. -/
theorem applyRenames_fst (mk : String → String → Step)
    (ps : List (String × String)) :
    ∀ names, (applyRenames mk ps names).1
      = (ps.filter fun p => decide (p.1 ≠ p.2)).map fun p => mk p.1 p.2 := by
  induction ps with
  | nil => intro names; rfl
  | cons p rest ih =>
    intro names
    obtain ⟨o, n⟩ := p
    by_cases h : o = n
    · simp [applyRenames, h, ih]
    · simp [applyRenames, h, ih]

/-- The first strategy emits only rename calls and warnings: never a save,
a directory creation, or a metadata attachment. -/
theorem strategy1_no_finalize (env : Env) (names : List String) :
    ∀ s ∈ (strategy1 env names).1,
      s ≠ Step.save ∧ s ≠ Step.mkdirOutput ∧ s ≠ Step.attachMeta := by
  intro s hs
  unfold strategy1 at hs
  split at hs
  · split at hs
    · rw [applyRenames_fst] at hs
      simp only [List.mem_map] at hs
      obtain ⟨p, _, rfl⟩ := hs
      exact ⟨by simp, by simp, by simp⟩
    · simp only [List.mem_singleton] at hs
      subst hs
      exact ⟨by simp, by simp, by simp⟩
  · simp at hs

/-- The second strategy emits only rename calls, warnings, and the package
rebuild: never a save, a directory creation, or a metadata attachment. -/
theorem strategy2_no_finalize (env : Env) (names : List String) :
    ∀ s ∈ (strategy2 env names).1,
      s ≠ Step.save ∧ s ≠ Step.mkdirOutput ∧ s ≠ Step.attachMeta := by
  intro s hs
  unfold strategy2 at hs
  split at hs
  · split at hs
    · split at hs
      · rw [applyRenames_fst] at hs
        simp only [List.mem_append, List.mem_map, List.mem_singleton] at hs
        rcases hs with ⟨p, _, rfl⟩ | rfl
        · exact ⟨by simp, by simp, by simp⟩
        · exact ⟨by simp, by simp, by simp⟩
      · rw [applyRenames_fst] at hs
        simp only [List.mem_append, List.mem_map, List.mem_singleton] at hs
        rcases hs with ⟨p, _, rfl⟩ | rfl
        · exact ⟨by simp, by simp, by simp⟩
        · exact ⟨by simp, by simp, by simp⟩
    · simp only [List.mem_singleton] at hs
      subst hs
      exact ⟨by simp, by simp, by simp⟩
  · simp at hs

/-- On the success path (weight file present, converter succeeds, exactly 3
outputs) the pipeline runs both strategies and finalizes. -/
theorem main_eq_of_ok (env : Env) (h1 : env.weightsExists = true)
    (h2 : env.convertOk = true) (h3 : env.convertedNames.length = 3) :
    main env =
      ([Step.buildModel, Step.loadWeights, Step.convert]
         ++ (strategy1 env env.convertedNames).1
         ++ (strategy2 env (strategy1 env env.convertedNames).2).1
         ++ [Step.attachMeta, Step.mkdirOutput, Step.save],
       .ok { outNames := (strategy2 env (strategy1 env env.convertedNames).2).2
             shortDescription := shortDescStr
             inputDescs := inputDescPairs
             outputDescs := outputDescPairs }) := by
  simp [main, h1, h2, h3]

/-! ### Witness environments -/

def envMissing : Env :=
  { weightsExists := false, convertOk := true, convertedNames := []
    renameInPlaceOk := true, renameSpecOk := true, weightsDirFound := true }

def envWrongCount : Env :=
  { weightsExists := true, convertOk := true, convertedNames := ["a"]
    renameInPlaceOk := true, renameSpecOk := true, weightsDirFound := true }

def envGoodNames : Env :=
  { weightsExists := true, convertOk := true
    convertedNames := ["conf", "x_off", "y_off"]
    renameInPlaceOk := true, renameSpecOk := true, weightsDirFound := true }

def envIdentityNames : Env :=
  { weightsExists := true, convertOk := true
    convertedNames := ["Identity", "Identity_1", "Identity_2"]
    renameInPlaceOk := true, renameSpecOk := true, weightsDirFound := true }

/-! ### Claims C3, C4, C5 -/

/-- Claim C3: when the weight file does not exist, the pipeline terminates
with a fatal error whose message names the missing path, and its trace is
empty: the graph was never built, the converter never invoked, and neither
the output directory creation nor the package write happened. -/
theorem c3_missing_weight_file (env : Env) (h : env.weightsExists = false) :
    (main env).1 = [] ∧
    (main env).2 = .error (missingWeightsMsg weightsPathStr) ∧
    (∃ pre, missingWeightsMsg weightsPathStr = pre ++ weightsPathStr) ∧
    Step.buildModel ∉ (main env).1 ∧ Step.convert ∉ (main env).1 ∧
    Step.mkdirOutput ∉ (main env).1 ∧ Step.save ∉ (main env).1 := by
  refine ⟨?_, ?_, ⟨"Missing weights file: ", rfl⟩, ?_, ?_, ?_, ?_⟩ <;>
    simp [main, h]

/-- Witness for C3 at a concrete environment with no weight file. -/
theorem c3_missing_weight_file_witness :
    (main envMissing).1 = [] ∧
    (main envMissing).2 = .error (missingWeightsMsg weightsPathStr) ∧
    (∃ pre, missingWeightsMsg weightsPathStr = pre ++ weightsPathStr) ∧
    Step.buildModel ∉ (main envMissing).1 ∧ Step.convert ∉ (main envMissing).1 ∧
    Step.mkdirOutput ∉ (main envMissing).1 ∧ Step.save ∉ (main envMissing).1 :=
  c3_missing_weight_file envMissing rfl

/-- Claim C4: a converted package with an output count different from 3 is a
fatal error raised before any rename attempt, metadata attachment, or disk
write; with a count of exactly 3 no such error is raised. -/
theorem c4_output_count_check (env : Env) (h1 : env.weightsExists = true)
    (h2 : env.convertOk = true) :
    (env.convertedNames.length ≠ 3 →
      (main env).2 = .error (wrongCountMsg env.convertedNames) ∧
      (∀ o n, Step.renameInPlace o n ∉ (main env).1) ∧
      (∀ o n, Step.renameOnSpec o n ∉ (main env).1) ∧
      Step.attachMeta ∉ (main env).1 ∧
      Step.mkdirOutput ∉ (main env).1 ∧
      Step.save ∉ (main env).1) ∧
    (env.convertedNames.length = 3 → ∃ pkg, (main env).2 = .ok pkg) := by
  constructor
  · intro hlen
    refine ⟨?_, ?_, ?_, ?_, ?_, ?_⟩ <;> simp [main, h1, h2, hlen]
  · intro hlen
    refine ⟨{ outNames := (strategy2 env (strategy1 env env.convertedNames).2).2
              shortDescription := shortDescStr
              inputDescs := inputDescPairs
              outputDescs := outputDescPairs }, ?_⟩
    simp [main, h1, h2, hlen]

/-- Witness for C4 at concrete environments with a wrong and a right output
count. -/
theorem c4_output_count_check_witness :
    ((main envWrongCount).2 = .error (wrongCountMsg envWrongCount.convertedNames) ∧
     Step.save ∉ (main envWrongCount).1) ∧
    (∃ pkg, (main envGoodNames).2 = .ok pkg) :=
  ⟨⟨((c4_output_count_check envWrongCount rfl rfl).1 (by decide)).1,
    ((c4_output_count_check envWrongCount rfl rfl).1 (by decide)).2.2.2.2.2⟩,
   (c4_output_count_check envGoodNames rfl rfl).2 (by decide)⟩

/-- Claim C5: when the converter already reports the names conf, x_off, y_off
in order, the resolver performs zero rename calls and the saved package keeps
those names; when it reports Identity, Identity_1, Identity_2 and the
in-place rename operation succeeds, the saved package ends with names exactly
conf, x_off, y_off. -/
theorem c5_resolver_behavior (env : Env) (h1 : env.weightsExists = true)
    (h2 : env.convertOk = true) :
    (env.convertedNames = desired_out_names →
      (∀ o n, Step.renameInPlace o n ∉ (main env).1) ∧
      (∀ o n, Step.renameOnSpec o n ∉ (main env).1) ∧
      ∃ pkg, (main env).2 = .ok pkg ∧ pkg.outNames = desired_out_names) ∧
    (env.convertedNames = ["Identity", "Identity_1", "Identity_2"] →
      env.renameInPlaceOk = true →
      ∃ pkg, (main env).2 = .ok pkg ∧ pkg.outNames = desired_out_names) := by
  obtain ⟨we, co, cn, rip, rsp, wdf⟩ := env
  simp only at h1 h2
  subst h1 h2
  constructor
  · intro hnames
    simp only at hnames
    subst hnames
    refine ⟨?_, ?_, ⟨_, rfl, rfl⟩⟩ <;>
      intro o n <;> simp [main, strategy1, strategy2, desired_out_names]
  · intro hnames hok
    simp only at hnames hok
    subst hnames
    subst hok
    exact ⟨_, rfl, rfl⟩

/-- Witness for C5 at the two concrete environments of the claim. -/
theorem c5_resolver_behavior_witness :
    ((∀ o n, Step.renameInPlace o n ∉ (main envGoodNames).1) ∧
     (∀ o n, Step.renameOnSpec o n ∉ (main envGoodNames).1) ∧
     ∃ pkg, (main envGoodNames).2 = .ok pkg ∧
       pkg.outNames = desired_out_names) ∧
    (∃ pkg, (main envIdentityNames).2 = .ok pkg ∧
       pkg.outNames = desired_out_names) :=
  ⟨(c5_resolver_behavior envGoodNames rfl rfl).1 rfl,
   (c5_resolver_behavior envIdentityNames rfl rfl).2 rfl rfl⟩

/-! ### Claims C6, C7, C8 -/

/-- Environment in which the second strategy is reached and the weights
directory cannot be located. -/
def envWeightsDirMissing : Env :=
  { weightsExists := true, convertOk := true
    convertedNames := ["Identity", "Identity_1", "Identity_2"]
    renameInPlaceOk := false, renameSpecOk := true, weightsDirFound := false }

/-- Environment in which both rename strategies throw. -/
def envBothFail : Env :=
  { weightsExists := true, convertOk := true
    convertedNames := ["Identity", "Identity_1", "Identity_2"]
    renameInPlaceOk := false, renameSpecOk := false, weightsDirFound := true }

/-- The package state saved when the converter names survive unrenamed. -/
def pkgUnrenamed : PackageState :=
  { outNames := ["Identity", "Identity_1", "Identity_2"]
    shortDescription := shortDescStr
    inputDescs := inputDescPairs
    outputDescs := outputDescPairs }

/-- The package state saved when the output names are resolved. -/
def pkgResolved : PackageState :=
  { outNames := desired_out_names
    shortDescription := shortDescStr
    inputDescs := inputDescPairs
    outputDescs := outputDescPairs }

/-- Counterexample to claim C6: with the weight storage location missing
during the descriptor-level strategy, the pipeline does not terminate with an
error; it logs a warning and still finalizes and saves the package. -/
theorem c6_counterexample :
    (main envWeightsDirMissing).2 = .ok pkgUnrenamed ∧
    Step.warn (warnSpecMsg ++ ": " ++ weightsDirErrMsg)
      ∈ (main envWeightsDirMissing).1 ∧
    Step.save ∈ (main envWeightsDirMissing).1 := by
  refine ⟨rfl, ?_, ?_⟩ <;> decide

/-- Claim C6 amended: during the descriptor-level (second) rename strategy,
if the weight storage location cannot be located, the raised error is caught
by the exception handler of that strategy and logged as a warning; the package
is left with its pre-strategy output names and the pipeline proceeds to
finalize and save it. -/
theorem c6_weights_dir_error_caught (env : Env) (h1 : env.weightsExists = true)
    (h2 : env.convertOk = true) (h3 : env.convertedNames.length = 3)
    (h4 : (strategy1 env env.convertedNames).2 ≠ desired_out_names)
    (h5 : env.renameSpecOk = true) (h6 : env.weightsDirFound = false) :
    Step.warn (warnSpecMsg ++ ": " ++ weightsDirErrMsg) ∈ (main env).1 ∧
    Step.save ∈ (main env).1 ∧
    (main env).2 = .ok { outNames := (strategy1 env env.convertedNames).2
                         shortDescription := shortDescStr
                         inputDescs := inputDescPairs
                         outputDescs := outputDescPairs } := by
  have hs2 : strategy2 env (strategy1 env env.convertedNames).2
      = ((applyRenames Step.renameOnSpec
            ((strategy1 env env.convertedNames).2.zip desired_out_names)
            (strategy1 env env.convertedNames).2).1
           ++ [Step.warn (warnSpecMsg ++ ": " ++ weightsDirErrMsg)],
         (strategy1 env env.convertedNames).2) := by
    simp [strategy2, h4, h5, h6]
  rw [main_eq_of_ok env h1 h2 h3, hs2]
  refine ⟨?_, ?_, rfl⟩ <;> simp

/-- Witness for the amended C6 at a concrete environment. -/
theorem c6_weights_dir_error_caught_witness :
    Step.warn (warnSpecMsg ++ ": " ++ weightsDirErrMsg)
      ∈ (main envWeightsDirMissing).1 ∧
    Step.save ∈ (main envWeightsDirMissing).1 ∧
    (main envWeightsDirMissing).2
      = .ok { outNames := (strategy1 envWeightsDirMissing
                             envWeightsDirMissing.convertedNames).2
              shortDescription := shortDescStr
              inputDescs := inputDescPairs
              outputDescs := outputDescPairs } :=
  c6_weights_dir_error_caught envWeightsDirMissing rfl rfl (by decide)
    (by decide) rfl rfl

/-- Claim C7: once the preconditions hold (weights present, converter
succeeded, three outputs), the pipeline never terminates with an error:
exceptions of both rename strategies are caught and logged as warnings, and
when both strategies fail the pipeline still attaches metadata and saves the
package, whose output names are the unrenamed converter names. -/
theorem c7_rename_exceptions_soft (env : Env) (h1 : env.weightsExists = true)
    (h2 : env.convertOk = true) (h3 : env.convertedNames.length = 3) :
    (∃ pkg, (main env).2 = .ok pkg) ∧
    (env.renameInPlaceOk = false → env.renameSpecOk = false →
     env.convertedNames ≠ desired_out_names →
      Step.warn warnInPlaceMsg ∈ (main env).1 ∧
      Step.warn warnSpecMsg ∈ (main env).1 ∧
      Step.attachMeta ∈ (main env).1 ∧
      Step.save ∈ (main env).1 ∧
      (main env).2 = .ok { outNames := env.convertedNames
                           shortDescription := shortDescStr
                           inputDescs := inputDescPairs
                           outputDescs := outputDescPairs }) := by
  constructor
  · rw [main_eq_of_ok env h1 h2 h3]
    exact ⟨_, rfl⟩
  · intro h4 h5 h6
    have hs1 : strategy1 env env.convertedNames
        = ([Step.warn warnInPlaceMsg], env.convertedNames) := by
      simp [strategy1, h4, h6]
    have hs2 : strategy2 env env.convertedNames
        = ([Step.warn warnSpecMsg], env.convertedNames) := by
      simp [strategy2, h5, h6]
    refine ⟨?_, ?_, ?_, ?_, ?_⟩ <;>
      simp [main_eq_of_ok env h1 h2 h3, hs1, hs2]

/-- Witness for C7 at a concrete environment in which both strategies fail. -/
theorem c7_rename_exceptions_soft_witness :
    (∃ pkg, (main envBothFail).2 = .ok pkg) ∧
    (Step.warn warnInPlaceMsg ∈ (main envBothFail).1 ∧
     Step.warn warnSpecMsg ∈ (main envBothFail).1 ∧
     Step.attachMeta ∈ (main envBothFail).1 ∧
     Step.save ∈ (main envBothFail).1 ∧
     (main envBothFail).2 = .ok { outNames := envBothFail.convertedNames
                                  shortDescription := shortDescStr
                                  inputDescs := inputDescPairs
                                  outputDescs := outputDescPairs }) :=
  ⟨(c7_rename_exceptions_soft envBothFail rfl rfl (by decide)).1,
   (c7_rename_exceptions_soft envBothFail rfl rfl (by decide)).2 rfl rfl
     (by decide)⟩

/-- Counterexample to claim C8: when both rename strategies fail, the saved
package carries output names that differ from the keys under which the output
descriptions were stored, so the descriptions are not keyed by the names the
outputs actually carry at finalization time. -/
theorem c8_counterexample :
    (main envBothFail).2 = .ok pkgUnrenamed ∧
    pkgUnrenamed.outputDescs.map Prod.fst ≠ pkgUnrenamed.outNames := by
  exact ⟨rfl, by decide⟩

/-- Claim C8 amended: the Metadata Finalizer attaches the three per-output
descriptions keyed by the fixed desired names conf, x_off, y_off, regardless
of the names that the package outputs actually carry; the keys coincide with the
actual output names exactly on those resolver outcomes that end with the
desired names. -/
theorem c8_metadata_keys (env : Env) (pkg : PackageState)
    (h : (main env).2 = .ok pkg) :
    pkg.outputDescs.map Prod.fst = desired_out_names ∧
    (pkg.outNames = desired_out_names →
      pkg.outputDescs.map Prod.fst = pkg.outNames) := by
  cases h1 : env.weightsExists with
  | false => simp [main, h1] at h
  | true =>
    cases h2 : env.convertOk with
    | false => simp [main, h1, h2] at h
    | true =>
      by_cases h3 : env.convertedNames.length = 3
      · rw [main_eq_of_ok env h1 h2 h3] at h
        simp only [Except.ok.injEq] at h
        subst h
        exact ⟨rfl, fun hn => by rw [hn]; rfl⟩
      · simp [main, h1, h2, h3] at h

/-- Witness for the amended C8 at a concrete resolved package. -/
theorem c8_metadata_keys_witness :
    pkgResolved.outputDescs.map Prod.fst = desired_out_names ∧
    (pkgResolved.outNames = desired_out_names →
      pkgResolved.outputDescs.map Prod.fst = pkgResolved.outNames) :=
  c8_metadata_keys envGoodNames pkgResolved rfl

/-! ### Claims C9, C10 -/

/-- Claim C9: on every fatal-error execution the save step is never reached;
on every successful execution the trace ends with metadata attachment,
directory creation, and exactly one save, in that order, and none of these
three steps occurs earlier in the trace. -/
theorem c9_write_once_last (env : Env) :
    (∀ msg, (main env).2 = .error msg → Step.save ∉ (main env).1) ∧
    (∀ pkg, (main env).2 = .ok pkg →
      ∃ pre, (main env).1
          = pre ++ [Step.attachMeta, Step.mkdirOutput, Step.save] ∧
        Step.save ∉ pre ∧ Step.mkdirOutput ∉ pre ∧ Step.attachMeta ∉ pre) := by
  constructor
  · intro msg hmsg
    cases h1 : env.weightsExists with
    | false => simp [main, h1]
    | true =>
      cases h2 : env.convertOk with
      | false => simp [main, h1, h2]
      | true =>
        by_cases h3 : env.convertedNames.length = 3
        · rw [main_eq_of_ok env h1 h2 h3] at hmsg
          simp at hmsg
        · simp [main, h1, h2, h3]
  · intro pkg hpkg
    cases h1 : env.weightsExists with
    | false => simp [main, h1] at hpkg
    | true =>
      cases h2 : env.convertOk with
      | false => simp [main, h1, h2] at hpkg
      | true =>
        by_cases h3 : env.convertedNames.length = 3
        · rw [main_eq_of_ok env h1 h2 h3]
          refine ⟨[Step.buildModel, Step.loadWeights, Step.convert]
              ++ (strategy1 env env.convertedNames).1
              ++ (strategy2 env (strategy1 env env.convertedNames).2).1,
            by simp, ?_, ?_, ?_⟩ <;>
          · intro hmem
            simp only [List.mem_append] at hmem
            rcases hmem with (hm | hm) | hm
            · simp at hm
            · first
                | exact (strategy1_no_finalize _ _ _ hm).1 rfl
                | exact (strategy1_no_finalize _ _ _ hm).2.1 rfl
                | exact (strategy1_no_finalize _ _ _ hm).2.2 rfl
            · first
                | exact (strategy2_no_finalize _ _ _ hm).1 rfl
                | exact (strategy2_no_finalize _ _ _ hm).2.1 rfl
                | exact (strategy2_no_finalize _ _ _ hm).2.2 rfl
        · simp [main, h1, h2, h3] at hpkg

/-- Witness for C9 at a fatal environment and at a successful one. -/
theorem c9_write_once_last_witness :
    Step.save ∉ (main envMissing).1 ∧
    (∃ pre, (main envGoodNames).1
        = pre ++ [Step.attachMeta, Step.mkdirOutput, Step.save] ∧
      Step.save ∉ pre ∧ Step.mkdirOutput ∉ pre ∧ Step.attachMeta ∉ pre) :=
  ⟨(c9_write_once_last envMissing).1 (missingWeightsMsg weightsPathStr) rfl,
   (c9_write_once_last envGoodNames).2 pkgResolved rfl⟩

/-- Claim C10: name repair is strictly positional in both strategies: the
rename calls are exactly one per zipped (i-th reported, i-th desired) pair
whose components differ, in order; for outputs carrying the correct names in
permuted order, the first strategy attempts the positional renames x_off to
conf and conf to x_off rather than reordering the outputs. -/
theorem c10_positional_renames (env : Env) (names : List String) :
    (names ≠ desired_out_names → env.renameInPlaceOk = true →
      (strategy1 env names).1
        = ((names.zip desired_out_names).filter fun p => decide (p.1 ≠ p.2)).map
            fun p => Step.renameInPlace p.1 p.2) ∧
    (names ≠ desired_out_names → env.renameSpecOk = true →
     env.weightsDirFound = true →
      (strategy2 env names).1
        = (((names.zip desired_out_names).filter fun p => decide (p.1 ≠ p.2)).map
            fun p => Step.renameOnSpec p.1 p.2) ++ [Step.rebuildModel]) ∧
    (env.renameInPlaceOk = true →
      (strategy1 env ["x_off", "conf", "y_off"]).1
        = [Step.renameInPlace "x_off" "conf",
           Step.renameInPlace "conf" "x_off"]) := by
  obtain ⟨we, co, cn, rip, rsp, wdf⟩ := env
  refine ⟨?_, ?_, ?_⟩
  · intro hne hok
    simp only at hok
    subst hok
    simp [strategy1, hne, applyRenames_fst]
  · intro hne hok hwd
    simp only at hok hwd
    subst hok
    subst hwd
    simp [strategy2, hne, applyRenames_fst]
  · intro hok
    simp only at hok
    subst hok
    rfl

/-- Witness for C10 at a concrete environment and concrete name lists. -/
theorem c10_positional_renames_witness :
    ((strategy1 envIdentityNames ["Identity", "Identity_1", "Identity_2"]).1
       = (((["Identity", "Identity_1", "Identity_2"].zip desired_out_names).filter
             fun p => decide (p.1 ≠ p.2)).map
           fun p => Step.renameInPlace p.1 p.2)) ∧
    ((strategy2 envIdentityNames ["Identity", "Identity_1", "Identity_2"]).1
       = ((((["Identity", "Identity_1", "Identity_2"].zip desired_out_names).filter
             fun p => decide (p.1 ≠ p.2)).map
           fun p => Step.renameOnSpec p.1 p.2) ++ [Step.rebuildModel])) ∧
    ((strategy1 envGoodNames ["x_off", "conf", "y_off"]).1
       = [Step.renameInPlace "x_off" "conf",
          Step.renameInPlace "conf" "x_off"]) :=
  ⟨(c10_positional_renames envIdentityNames
      ["Identity", "Identity_1", "Identity_2"]).1 (by decide) rfl,
   (c10_positional_renames envIdentityNames
      ["Identity", "Identity_1", "Identity_2"]).2.1 (by decide) rfl rfl,
   (c10_positional_renames envGoodNames ["x_off", "conf", "y_off"]).2.2 rfl⟩

end GridTrackNet
